import Mathlib

/-!
Verification of the media-downloader bot (`src/main.py`).

Strings from the Python source are embedded as `List Char`.  The
quality-selection workflow `handle_quality_selection` is embedded as a pure
function from an explicit input record (pending session state, bookkeeping
profile, the extraction backend's outcome, the delivery outcome, and whether
the final status edit raises) to the ordered trace of observable effects the
handler performs (chat edits, record creation/update, file creation/removal,
send operations, user-stat syncs).  User-facing message texts whose exact
rendering depends on Python float formatting are abstracted to constructors
carrying their numeric parameters; the upsell hint corresponds to the
dedicated constructor produced only on the non-premium branch, exactly as in
the source.
-/

/-- Lowercasing used to embed `re.IGNORECASE` matching of the (all-lowercase,
literal-only) platform patterns. -/
def lowerChars (s : List Char) : List Char := s.map Char.toLower

/-- Boolean list-prefix test. -/
def isPrefixB : List Char → List Char → Bool
  | [], _ => true
  | _ :: _, [] => false
  | a :: as, b :: bs => a == b && isPrefixB as bs

/-- `containsSeq pat hay`: `pat` occurs as a contiguous substring of `hay`.
Embeds `re.search` of a literal pattern. -/
def containsSeq (pat : List Char) : List Char → Bool
  | [] => isPrefixB pat []
  | b :: bs => isPrefixB pat (b :: bs) || containsSeq pat bs

/-- Python `str.split(c)` for a single-character separator. -/
def splitOnChar (c : Char) : List Char → List (List Char)
  | [] => [[]]
  | x :: xs =>
    if x = c then [] :: splitOnChar c xs
    else (x :: (splitOnChar c xs).headD []) :: (splitOnChar c xs).tail

/-- `FREE_MAX_SIZE = 1 * 1024 * 1024 * 1024` (src/main.py line 28). -/
def FREE_MAX_SIZE : Nat := 1 * 1024 * 1024 * 1024

/-- `PREMIUM_MAX_SIZE = 5 * 1024 * 1024 * 1024` (src/main.py line 29). -/
def PREMIUM_MAX_SIZE : Nat := 5 * 1024 * 1024 * 1024

/-- The size check `file_size > max_size` (src/main.py line 283). -/
def size_rejected (file_size max_size : Nat) : Bool :=
  decide (file_size > max_size)

/-- `max_size = PREMIUM_MAX_SIZE if is_premium else FREE_MAX_SIZE`
(src/main.py line 228). -/
def max_size_for (is_premium : Bool) : Nat :=
  if is_premium then PREMIUM_MAX_SIZE else FREE_MAX_SIZE

/-- `PLATFORM_PATTERNS` (src/main.py lines 35-44).  Each regex there is an
alternation of literal substrings (dots escaped), embedded as the list of
those substrings, in dict insertion order. -/
def PLATFORM_PATTERNS : List (List Char × List (List Char)) :=
  [("youtube".toList, ["youtube.com".toList, "youtu.be".toList]),
   ("instagram".toList, ["instagram.com".toList]),
   ("tiktok".toList, ["tiktok.com".toList]),
   ("twitter".toList, ["twitter.com".toList, "x.com".toList]),
   ("facebook".toList, ["facebook.com".toList]),
   ("vimeo".toList, ["vimeo.com".toList]),
   ("soundcloud".toList, ["soundcloud.com".toList]),
   ("spotify".toList, ["spotify.com".toList])]

/-- Case-insensitive match of a URL against one pattern-entry's alternatives
(`re.search(pattern, url, re.IGNORECASE)`, src/main.py line 135). -/
def pattern_matches (url : List Char) (pats : List (List Char)) : Bool :=
  pats.any (fun p => containsSeq p (lowerChars url))

/-- `detect_platform` (src/main.py lines 133-137): first matching entry's
tag, else `"other"`. -/
def detect_platform (url : List Char) : List Char :=
  match PLATFORM_PATTERNS.find? (fun e => pattern_matches url e.2) with
  | some e => e.1
  | none => "other".toList

/-- `QUALITY_OPTIONS` (src/main.py line 47). -/
def QUALITY_OPTIONS : List (List Char) :=
  ["180p".toList, "240p".toList, "360p".toList, "480p".toList, "720p".toList,
   "1080p".toList, "1440p".toList, "4k".toList, "best".toList]

/-- The decoded user choice: a capped video height, uncapped best, or audio. -/
inductive QualitySelection where
  | videoHeightCap (h : Nat)
  | bestAvailable
  | audioOnly
deriving DecidableEq

/-- The height dict at src/main.py lines 257-258: `some (some h)` for capped
presets, `some none` for `"best"` (value `None`), `none` for a `KeyError`. -/
def height_map (q : List Char) : Option (Option Nat) :=
  if q = "180p".toList then some (some 180)
  else if q = "240p".toList then some (some 240)
  else if q = "360p".toList then some (some 360)
  else if q = "480p".toList then some (some 480)
  else if q = "720p".toList then some (some 720)
  else if q = "1080p".toList then some (some 1080)
  else if q = "1440p".toList then some (some 1440)
  else if q = "4k".toList then some (some 2160)
  else if q = "best".toList then some none
  else none

/-- Callback token `f"quality:{quality}:{url[:50]}"` (src/main.py
lines 143 and 151). -/
def encode_token (quality url : List Char) : List Char :=
  "quality:".toList ++ quality ++ ":".toList ++ url.take 50

/-- Decoding of a callback token: `data = query.data.split(":")`,
`quality = data[1]` (src/main.py lines 209-210), then the branch on
`quality == "audio"` (line 246) and the height-dict lookup (line 257);
`none` models the `KeyError` on an unrecognized preset (InvalidSelection). -/
def decode_token (token : List Char) : Option QualitySelection :=
  match (splitOnChar ':' token).get? 1 with
  | none => none
  | some q =>
    if q = "audio".toList then some QualitySelection.audioOnly
    else
      match height_map q with
      | some (some h) => some (QualitySelection.videoHeightCap h)
      | some none => some QualitySelection.bestAvailable
      | none => none

/-- Bookkeeping user row (fields read at src/main.py lines 221-222 and
329-334). -/
structure UserProfile where
  is_premium : Bool
  is_banned : Bool
  total_downloads : Nat
  total_data_downloaded : Nat
deriving DecidableEq

/-- Result of a successful `ydl.extract_info` run plus the size probe
(src/main.py lines 271-281). -/
structure ExtractedMedia where
  title : List Char
  file_size : Nat
  duration : Option Nat
deriving DecidableEq

/-- One run's inputs: the decoded preset `data[1]`, the per-user session
slots, the profile returned by `base44.get_user`, the extraction outcome
(`Except.error e` = the backend raised with text `e`), the delivery outcome
(`some e` = `send_audio`/`send_video` raised with text `e`), and whether the
final success status edit raises (`some e`), which exercises the broad
`except` after the completed-update. -/
structure WorkflowInput where
  quality : List Char
  pending_url : Option (List Char)
  platform : Option (List Char)
  db_user : Option UserProfile
  extract_result : Except (List Char) ExtractedMedia
  send_error : Option (List Char)
  post_error : Option (List Char)

/-- User-facing chat texts.  Size-rejection texts carry their numeric
parameters instead of the source's float-formatted strings; the upsell hint
("Upgrade to Premium for larger files!") is present exactly in
`sizeTooLargeUpsell` (src/main.py lines 291-297). -/
inductive Msg where
  | sessionExpired
  | banned
  | starting
  | downloading0
  | uploading
  | completeOk
  | sizeTooLargeUpsell (file_size limit : Nat)
  | sizeTooLarge (file_size : Nat)
  | genericError (e : List Char)
deriving DecidableEq

/-- `error_message` payloads of record updates to `failed`: the
size-specific text (carrying measured size and limit, src/main.py line 288)
versus a generic `str(e)` text. -/
inductive ErrMsg where
  | extractionError (e : List Char)
  | tooLarge (file_size limit : Nat)
deriving DecidableEq

/-- Payload of `base44.update_download` (src/main.py lines 286-289, 321-326,
343-346): always a single terminal status plus its fields. -/
inductive UpdatePayload where
  | failed (error_message : ErrMsg)
  | completed (title : List Char) (file_size : Nat) (duration : Option Nat)
deriving DecidableEq

/-- Observable effects of one `handle_quality_selection` run, in order. -/
inductive Event where
  | answerCallback
  | editMessage (m : Msg)
  | getUser
  | logDownload (url platform quality media_type format : List Char)
  | extractCall (url quality : List Char)
  | fileCreated
  | removeFile
  | updateDownload (p : UpdatePayload)
  | sendMedia (media_type title quality : List Char)
  | syncUserStats (total_downloads total_data_downloaded : Nat)
deriving DecidableEq

/-- Python `str(KeyError(q))`, the text of the exception raised by the
height-dict lookup on an unknown preset. -/
def key_error_text (q : List Char) : List Char :=
  Char.ofNat 39 :: q ++ [Char.ofNat 39]

/-- The height-dict lookup at src/main.py line 257 raises `KeyError` iff the
preset is not `"audio"` and not a key of the dict. -/
def quality_key_error (q : List Char) : Bool :=
  if q = "audio".toList then false else (height_map q).isNone

/-- `"audio" if quality == "audio" else "video"` (src/main.py line 237). -/
def media_type_for (q : List Char) : List Char :=
  if q = "audio".toList then "audio".toList else "video".toList

/-- `"mp3" if quality == "audio" else "mp4"` (src/main.py line 238). -/
def format_for (q : List Char) : List Char :=
  if q = "audio".toList then "mp3".toList else "mp4".toList

/-- `db_user.get("is_premium", False) if db_user else False`
(src/main.py line 221). -/
def db_is_premium : Option UserProfile → Bool
  | some u => u.is_premium
  | none => false

/-- `db_user.get("is_banned", False) if db_user else False`
(src/main.py line 222). -/
def db_is_banned : Option UserProfile → Bool
  | some u => u.is_banned
  | none => false

/-- Events of the `try` block, src/main.py lines 244-350: preset lookup
(may raise `KeyError`), extraction, size check, delivery, completed-update,
stats sync, final status edit and cleanup, with the single `except` branch
(lines 341-350) updating the record to `failed` and editing a generic error
message whatever the exception was.  The local file exists from the moment
extraction succeeds (`fileCreated`) until a `removeFile`. -/
def run_try (quality url : List Char) (is_premium : Bool)
    (db_user : Option UserProfile)
    (extract_result : Except (List Char) ExtractedMedia)
    (send_error post_error : Option (List Char)) : List Event :=
  if quality_key_error quality = true then
    [Event.updateDownload
       (UpdatePayload.failed (ErrMsg.extractionError ((key_error_text quality).take 500))),
     Event.editMessage (Msg.genericError ((key_error_text quality).take 100))]
  else
    Event.editMessage Msg.downloading0 :: Event.extractCall url quality ::
    (match extract_result with
     | Except.error e =>
       [Event.updateDownload (UpdatePayload.failed (ErrMsg.extractionError (e.take 500))),
        Event.editMessage (Msg.genericError (e.take 100))]
     | Except.ok m =>
       Event.fileCreated ::
       (if size_rejected m.file_size (max_size_for is_premium) = true then
          [Event.removeFile,
           Event.updateDownload
             (UpdatePayload.failed (ErrMsg.tooLarge m.file_size (max_size_for is_premium))),
           Event.editMessage
             (if is_premium then Msg.sizeTooLarge m.file_size
              else Msg.sizeTooLargeUpsell m.file_size (max_size_for is_premium))]
        else
          Event.editMessage Msg.uploading ::
          Event.sendMedia (media_type_for quality) m.title quality ::
          (match send_error with
           | some e =>
             [Event.updateDownload (UpdatePayload.failed (ErrMsg.extractionError (e.take 500))),
              Event.editMessage (Msg.genericError (e.take 100))]
           | none =>
             Event.updateDownload (UpdatePayload.completed m.title m.file_size m.duration) ::
             ((match db_user with
               | some u =>
                 [Event.syncUserStats (u.total_downloads + 1)
                    (u.total_data_downloaded + m.file_size)]
               | none => []) ++
              (match post_error with
               | some e =>
                 [Event.updateDownload (UpdatePayload.failed (ErrMsg.extractionError (e.take 500))),
                  Event.editMessage (Msg.genericError (e.take 100))]
               | none => [Event.editMessage Msg.completeOk, Event.removeFile])))))

/-- `handle_quality_selection` (src/main.py lines 205-350) as a trace of
effects: answer the callback; if the session slot is empty (missing key and
empty string are both falsy) edit "Session expired" and stop; load the
profile; if banned edit the ban notice and stop; create the DownloadRecord
with status `"downloading"`, edit "Starting download...", and run the `try`
block. -/
def handle_quality_selection (inp : WorkflowInput) : List Event :=
  if inp.pending_url.getD [] = [] then
    [Event.answerCallback, Event.editMessage Msg.sessionExpired]
  else
    if db_is_banned inp.db_user = true then
      [Event.answerCallback, Event.getUser, Event.editMessage Msg.banned]
    else
      Event.answerCallback :: Event.getUser ::
      Event.logDownload (inp.pending_url.getD []) (inp.platform.getD ("other".toList))
        inp.quality (media_type_for inp.quality) (format_for inp.quality) ::
      Event.editMessage Msg.starting ::
      run_try inp.quality (inp.pending_url.getD []) (db_is_premium inp.db_user)
        inp.db_user inp.extract_result inp.send_error inp.post_error

/-- Predicate pickers over the trace. -/
def isUpdate : Event → Bool
  | Event.updateDownload _ => true
  | _ => false

/-- The trace event of `base44.log_download` (always status `"downloading"`,
src/main.py line 236). -/
def isLog : Event → Bool
  | Event.logDownload _ _ _ _ _ => true
  | _ => false

/-- Invocation of the extraction backend (`ydl.extract_info`). -/
def isExtract : Event → Bool
  | Event.extractCall _ _ => true
  | _ => false

/-- The send-file operation: `send_audio` when the media type is `"audio"`,
`send_video` otherwise — the source picks the call by the same
`quality == "audio"` test that determines the media type, so one event with
the media type as first argument represents both. -/
def isSend : Event → Bool
  | Event.sendMedia _ _ _ => true
  | _ => false

/-- The user-stat upsert (`base44.sync_user` with counters). -/
def isSync : Event → Bool
  | Event.syncUserStats _ _ => true
  | _ => false

/-- Creation of the local temporary file. -/
def isFileCreated : Event → Bool
  | Event.fileCreated => true
  | _ => false

/-- `os.remove` of the local temporary file. -/
def isRemove : Event → Bool
  | Event.removeFile => true
  | _ => false

/-- A run leaves the local file behind iff it created one and never removed
it. -/
def file_left_behind (t : List Event) : Bool :=
  t.any isFileCreated && !(t.any isRemove)

/-- A Free-tier, non-banned profile used by concrete runs. -/
def userFree : UserProfile := ⟨false, false, 7, 1000⟩

/-- A banned profile used by concrete runs. -/
def userBanned : UserProfile := ⟨false, true, 0, 0⟩

/-- A 300-byte extraction result used by concrete runs. -/
def mediaSmall : ExtractedMedia := ⟨"t".toList, 300, some 60⟩

/-- An extraction result one byte over the Free limit. -/
def mediaBig : ExtractedMedia := ⟨"t".toList, FREE_MAX_SIZE + 1, some 60⟩

/-- A concrete session URL used by concrete runs. -/
def urlY : List Char := "https://youtu.be/abc".toList

theorem splitOnChar_sep (c : Char) (s t : List Char) (h : c ∉ s) :
    splitOnChar c (s ++ c :: t) = s :: splitOnChar c t := by
  induction s with
  | nil => simp [splitOnChar]
  | cons a as ih =>
    have ha : ¬(a = c) := fun hc => h (by simp [hc])
    have has : c ∉ as := fun hc => h (by simp [hc])
    simp [splitOnChar, ha, ih has]

theorem splitOnChar_token (q url : List Char) (hq : (':' : Char) ∉ q) :
    splitOnChar ':' (encode_token q url) =
      "quality".toList :: q :: splitOnChar ':' (url.take 50) := by
  have h1 : (':' : Char) ∉ "quality".toList := by decide
  have h2 : encode_token q url =
      "quality".toList ++ ':' :: (q ++ ':' :: url.take 50) := by
    simp [encode_token]
  rw [h2, splitOnChar_sep _ _ _ h1, splitOnChar_sep _ _ _ hq]

theorem decode_encode (q url : List Char) (hq : (':' : Char) ∉ q) :
    decode_token (encode_token q url) =
      (if q = "audio".toList then some QualitySelection.audioOnly
       else
         match height_map q with
         | some (some h) => some (QualitySelection.videoHeightCap h)
         | some none => some QualitySelection.bestAvailable
         | none => none) := by
  rw [decode_token, splitOnChar_token q url hq]
  rfl

theorem height_map_none_of_not_mem (q : List Char) (h : q ∉ QUALITY_OPTIONS) :
    height_map q = none := by
  simp [QUALITY_OPTIONS, not_or] at h
  obtain ⟨h1, h2, h3, h4, h5, h6, h7, h8, h9⟩ := h
  simp [height_map, h1, h2, h3, h4, h5, h6, h7, h8, h9]

theorem find?_first {α : Type} (p : α → Bool) (e : α) (l1 l2 : List α)
    (h1 : ∀ x ∈ l1, p x = false) (he : p e = true) :
    (l1 ++ e :: l2).find? p = some e := by
  induction l1 with
  | nil => simp [List.find?_cons, he]
  | cons a as ih =>
    have ha : p a = false := h1 a (by simp)
    simp only [List.cons_append, List.find?_cons, ha]
    exact ih fun x hx => h1 x (by simp [hx])

/-- C1: when extraction succeeds and the byte size strictly exceeds the
tier limit, the run deletes the local file, never performs the
send-audio/send-video operation, updates the DownloadRecord exactly once,
to `failed` with the size-specific message, does not touch the user's
stats, and shows the upsell-hint message exactly when the user is
non-premium. -/
theorem size_rejected_path_cleans_up_and_skips_delivery
    (q : List Char) (pu pl : Option (List Char)) (du : Option UserProfile)
    (m : ExtractedMedia) (se pe : Option (List Char))
    (hurl : pu.getD [] ≠ [])
    (hban : db_is_banned du = false)
    (hq : quality_key_error q = false)
    (hsz : size_rejected m.file_size (max_size_for (db_is_premium du)) = true) :
    (handle_quality_selection ⟨q, pu, pl, du, Except.ok m, se, pe⟩).filter isSend = [] ∧
    (handle_quality_selection ⟨q, pu, pl, du, Except.ok m, se, pe⟩).any isRemove = true ∧
    (handle_quality_selection ⟨q, pu, pl, du, Except.ok m, se, pe⟩).filter isSync = [] ∧
    (handle_quality_selection ⟨q, pu, pl, du, Except.ok m, se, pe⟩).filter isUpdate =
      [Event.updateDownload (UpdatePayload.failed
        (ErrMsg.tooLarge m.file_size (max_size_for (db_is_premium du))))] ∧
    (Event.editMessage (Msg.sizeTooLargeUpsell m.file_size (max_size_for (db_is_premium du)))
        ∈ handle_quality_selection ⟨q, pu, pl, du, Except.ok m, se, pe⟩
      ↔ db_is_premium du = false) := by
  rcases du with _ | ⟨prem, ban, td, tb⟩
  · simp [db_is_banned, db_is_premium] at hban hsz ⊢
    simp [handle_quality_selection, run_try, hurl, hq, hsz, db_is_banned, db_is_premium,
      isSend, isRemove, isSync, isUpdate]
  · simp [db_is_banned, db_is_premium] at hban hsz ⊢
    subst hban
    cases prem <;>
      simp [handle_quality_selection, run_try, hurl, hq, hsz, db_is_banned, db_is_premium,
        isSend, isRemove, isSync, isUpdate]

theorem size_rejected_path_witness :
    (handle_quality_selection ⟨"best".toList, some urlY, some "youtube".toList, some userFree,
        Except.ok mediaBig, none, none⟩).filter isSend = [] ∧
    (handle_quality_selection ⟨"best".toList, some urlY, some "youtube".toList, some userFree,
        Except.ok mediaBig, none, none⟩).any isRemove = true := by
  have h := size_rejected_path_cleans_up_and_skips_delivery "best".toList (some urlY)
    (some "youtube".toList) (some userFree) mediaBig none none
    (by decide) (by decide) (by decide) (by decide)
  exact ⟨h.1, h.2.1⟩

/-- C2 counterexample: a run that completes successfully (the record is
updated to `completed`) while the bookkeeping lookup returned no profile:
no stat increment at all happens, refuting the unconditional claim. -/
theorem completed_without_profile_skips_stats :
    Event.updateDownload
        (UpdatePayload.completed mediaSmall.title mediaSmall.file_size mediaSmall.duration)
      ∈ handle_quality_selection ⟨"best".toList, some urlY, some "youtube".toList, none,
          Except.ok mediaSmall, none, none⟩ ∧
    (handle_quality_selection ⟨"best".toList, some urlY, some "youtube".toList, none,
        Except.ok mediaSmall, none, none⟩).filter isSync = [] := by
  decide

/-- C2 (amended): a fully successful run whose bookkeeping lookup returned a
UserProfile performs exactly one stat upsert, with `totalDownloads + 1` and
`totalBytesDownloaded + fileSize`, updates the record exactly once, to
`completed` with title, byte size and duration, and deletes the local
file. -/
theorem completed_path_updates_stats_once
    (q : List Char) (pu pl : Option (List Char)) (u : UserProfile) (m : ExtractedMedia)
    (hurl : pu.getD [] ≠ [])
    (hban : u.is_banned = false)
    (hq : quality_key_error q = false)
    (hsz : size_rejected m.file_size (max_size_for u.is_premium) = false) :
    (handle_quality_selection ⟨q, pu, pl, some u, Except.ok m, none, none⟩).filter isSync =
      [Event.syncUserStats (u.total_downloads + 1) (u.total_data_downloaded + m.file_size)] ∧
    (handle_quality_selection ⟨q, pu, pl, some u, Except.ok m, none, none⟩).filter isUpdate =
      [Event.updateDownload (UpdatePayload.completed m.title m.file_size m.duration)] ∧
    (handle_quality_selection ⟨q, pu, pl, some u, Except.ok m, none, none⟩).any isRemove = true ∧
    file_left_behind
      (handle_quality_selection ⟨q, pu, pl, some u, Except.ok m, none, none⟩) = false := by
  obtain ⟨prem, ban, td, tb⟩ := u
  simp only at hban hsz
  subst hban
  simp [handle_quality_selection, run_try, hurl, hq, hsz, db_is_banned, db_is_premium,
    isSync, isUpdate, isRemove, isFileCreated, file_left_behind]

theorem completed_path_witness :
    (handle_quality_selection ⟨"best".toList, some urlY, some "youtube".toList, some userFree,
        Except.ok mediaSmall, none, none⟩).filter isSync =
      [Event.syncUserStats (userFree.total_downloads + 1)
        (userFree.total_data_downloaded + mediaSmall.file_size)] ∧
    (handle_quality_selection ⟨"best".toList, some urlY, some "youtube".toList, some userFree,
        Except.ok mediaSmall, none, none⟩).any isRemove = true := by
  have h := completed_path_updates_stats_once "best".toList (some urlY)
    (some "youtube".toList) userFree mediaSmall
    (by decide) (by decide) (by decide) (by decide)
  exact ⟨h.1, h.2.2.1⟩

/-- C3 counterexample: a run whose delivery fails (send raises) terminates
with the local temporary file created and never removed. -/
theorem delivery_failure_leaks_file :
    file_left_behind (handle_quality_selection ⟨"best".toList, some urlY,
      some "youtube".toList, some userFree, Except.ok mediaSmall,
      some "network error".toList, none⟩) = true := by
  decide

/-- C3 (amended): on every run in which delivery does not fail and no
failure occurs after the completed-update — i.e. on the completed,
size-rejected, extraction-failure, invalid-preset, banned and
session-expired paths — a created local file is always removed; on delivery
failure (and on a failure after the completed-update) it is left behind. -/
theorem file_cleanup_outside_delivery_failure
    (q : List Char) (pu pl : Option (List Char)) (du : Option UserProfile)
    (ex : Except (List Char) ExtractedMedia) :
    file_left_behind (handle_quality_selection ⟨q, pu, pl, du, ex, none, none⟩) = false := by
  by_cases hurl : pu.getD [] = []
  · simp [handle_quality_selection, hurl, file_left_behind, isFileCreated, isRemove]
  · rcases du with _ | ⟨prem, ban, td, tb⟩
    · by_cases hq : quality_key_error q = true
      · simp [handle_quality_selection, run_try, hurl, hq, db_is_banned, db_is_premium,
          file_left_behind, isFileCreated, isRemove]
      · cases ex with
        | error e =>
          simp [handle_quality_selection, run_try, hurl, hq, db_is_banned, db_is_premium,
            file_left_behind, isFileCreated, isRemove]
        | ok m =>
          by_cases hsz : size_rejected m.file_size (max_size_for false) = true <;>
            simp [handle_quality_selection, run_try, hurl, hq, hsz, db_is_banned, db_is_premium,
              file_left_behind, isFileCreated, isRemove]
    · cases ban
      · by_cases hq : quality_key_error q = true
        · simp [handle_quality_selection, run_try, hurl, hq, db_is_banned, db_is_premium,
            file_left_behind, isFileCreated, isRemove]
        · cases ex with
          | error e =>
            simp [handle_quality_selection, run_try, hurl, hq, db_is_banned, db_is_premium,
              file_left_behind, isFileCreated, isRemove]
          | ok m =>
            by_cases hsz : size_rejected m.file_size (max_size_for prem) = true <;>
              simp [handle_quality_selection, run_try, hurl, hq, hsz, db_is_banned,
                db_is_premium, file_left_behind, isFileCreated, isRemove]
      · simp [handle_quality_selection, hurl, db_is_banned, file_left_behind,
          isFileCreated, isRemove]

/-- C4 counterexample: when a failure occurs after the completed-update
(here the final status edit raises), the record created by the run is
mutated twice — to `completed`, then to `failed` — refuting "mutated exactly
once more regardless of outcome". -/
theorem post_completion_failure_double_update :
    (handle_quality_selection ⟨"best".toList, some urlY, some "youtube".toList, some userFree,
        Except.ok mediaSmall, none, some "edit failed".toList⟩).filter isUpdate =
      [Event.updateDownload
         (UpdatePayload.completed mediaSmall.title mediaSmall.file_size mediaSmall.duration),
       Event.updateDownload
         (UpdatePayload.failed (ErrMsg.extractionError "edit failed".toList))] := by
  decide

/-- C4 (amended): on every run that creates a DownloadRecord (session
present, user not banned) and in which no failure occurs after the
completed-update, exactly one record is created — with status
`downloading`, before any extraction call — and it is subsequently updated
exactly once, to a terminal status. -/
theorem record_lifecycle_single_update
    (q : List Char) (pu pl : Option (List Char)) (du : Option UserProfile)
    (ex : Except (List Char) ExtractedMedia) (se : Option (List Char))
    (hurl : pu.getD [] ≠ [])
    (hban : db_is_banned du = false) :
    ((handle_quality_selection ⟨q, pu, pl, du, ex, se, none⟩).filter isLog).length = 1 ∧
    (∀ e ∈ (handle_quality_selection ⟨q, pu, pl, du, ex, se, none⟩).takeWhile
        (fun e => !(isLog e)), isExtract e = false) ∧
    ((handle_quality_selection ⟨q, pu, pl, du, ex, se, none⟩).filter isUpdate).length = 1 := by
  rcases du with _ | ⟨prem, ban, td, tb⟩
  · by_cases hq : quality_key_error q = true
    · simp [handle_quality_selection, run_try, hurl, hq, db_is_banned, db_is_premium,
        isLog, isExtract, isUpdate]
    · cases ex with
      | error e =>
        simp [handle_quality_selection, run_try, hurl, hq, db_is_banned, db_is_premium,
          isLog, isExtract, isUpdate]
      | ok m =>
        by_cases hsz : size_rejected m.file_size (max_size_for false) = true <;>
          cases se <;>
          simp [handle_quality_selection, run_try, hurl, hq, hsz, db_is_banned, db_is_premium,
            isLog, isExtract, isUpdate]
  · simp only [db_is_banned] at hban
    subst hban
    by_cases hq : quality_key_error q = true
    · simp [handle_quality_selection, run_try, hurl, hq, db_is_banned, db_is_premium,
        isLog, isExtract, isUpdate]
    · cases ex with
      | error e =>
        simp [handle_quality_selection, run_try, hurl, hq, db_is_banned, db_is_premium,
          isLog, isExtract, isUpdate]
      | ok m =>
        by_cases hsz : size_rejected m.file_size (max_size_for prem) = true <;>
          cases se <;>
          simp [handle_quality_selection, run_try, hurl, hq, hsz, db_is_banned, db_is_premium,
            isLog, isExtract, isUpdate]

theorem record_lifecycle_witness :
    ((handle_quality_selection ⟨"best".toList, some urlY, some "youtube".toList, some userFree,
        Except.ok mediaSmall, none, none⟩).filter isLog).length = 1 ∧
    ((handle_quality_selection ⟨"best".toList, some urlY, some "youtube".toList, some userFree,
        Except.ok mediaSmall, none, none⟩).filter isUpdate).length = 1 := by
  have h := record_lifecycle_single_update "best".toList (some urlY) (some "youtube".toList)
    (some userFree) (Except.ok mediaSmall) none (by decide) (by decide)
  exact ⟨h.1, h.2.2⟩

/-- C5 counterexample: for a concrete banned user the run logs no
DownloadRecord at all, refuting "a DownloadRecord is still logged with the
selection already known" — the handler returns before `log_download`. -/
theorem banned_user_creates_no_record :
    db_is_banned (some userBanned) = true ∧
    (handle_quality_selection ⟨"best".toList, some urlY, some "youtube".toList,
        some userBanned, Except.ok mediaSmall, none, none⟩).filter isLog = [] := by
  decide

/-- C5 (amended): every run whose loaded profile is banned terminates
without invoking the ExtractionAdapter and without creating any
DownloadRecord: the whole trace is callback-answer, profile load, ban
notice. -/
theorem banned_user_stops_before_extraction
    (q : List Char) (pu pl : Option (List Char)) (du : Option UserProfile)
    (ex : Except (List Char) ExtractedMedia) (se pe : Option (List Char))
    (hurl : pu.getD [] ≠ [])
    (hban : db_is_banned du = true) :
    (handle_quality_selection ⟨q, pu, pl, du, ex, se, pe⟩).filter isExtract = [] ∧
    (handle_quality_selection ⟨q, pu, pl, du, ex, se, pe⟩).filter isLog = [] ∧
    handle_quality_selection ⟨q, pu, pl, du, ex, se, pe⟩ =
      [Event.answerCallback, Event.getUser, Event.editMessage Msg.banned] := by
  simp [handle_quality_selection, hurl, hban, isExtract, isLog]

theorem banned_user_witness :
    (handle_quality_selection ⟨"best".toList, some urlY, some "youtube".toList,
        some userBanned, Except.ok mediaSmall, none, none⟩).filter isExtract = [] := by
  exact (banned_user_stops_before_extraction "best".toList (some urlY)
    (some "youtube".toList) (some userBanned) (Except.ok mediaSmall) none none
    (by decide) (by decide)).1

/-- C6: every run arriving with no PendingSelection (the session slot is
absent, or holds the falsy empty string) terminates in the session-expired
message without creating a DownloadRecord and without invoking the
ExtractionAdapter. -/
theorem session_expired_no_record_no_extraction
    (q : List Char) (pu pl : Option (List Char)) (du : Option UserProfile)
    (ex : Except (List Char) ExtractedMedia) (se pe : Option (List Char))
    (hurl : pu.getD [] = []) :
    (handle_quality_selection ⟨q, pu, pl, du, ex, se, pe⟩).filter isLog = [] ∧
    (handle_quality_selection ⟨q, pu, pl, du, ex, se, pe⟩).filter isExtract = [] ∧
    handle_quality_selection ⟨q, pu, pl, du, ex, se, pe⟩ =
      [Event.answerCallback, Event.editMessage Msg.sessionExpired] := by
  simp [handle_quality_selection, hurl, isLog, isExtract]

theorem session_expired_witness :
    (handle_quality_selection ⟨"best".toList, none, none, some userFree,
        Except.ok mediaSmall, none, none⟩).filter isLog = [] ∧
    (handle_quality_selection ⟨"best".toList, none, none, some userFree,
        Except.ok mediaSmall, none, none⟩).filter isExtract = [] := by
  have h := session_expired_no_record_no_extraction "best".toList none none (some userFree)
    (Except.ok mediaSmall) none none (by decide)
  exact ⟨h.1, h.2.1⟩

/-- C7: the limits are exactly 1 GiB (Free) and 5 GiB (Premium), these are
the ceilings the workflow selects per tier, and the check is strict-greater
at the boundary: exactly `limit` bytes is accepted and `limit + 1` bytes is
rejected, for every limit. -/
theorem size_limits_and_strict_boundary :
    FREE_MAX_SIZE = 2 ^ 30 ∧
    PREMIUM_MAX_SIZE = 5 * 2 ^ 30 ∧
    max_size_for false = FREE_MAX_SIZE ∧
    max_size_for true = PREMIUM_MAX_SIZE ∧
    (∀ limit : Nat, size_rejected limit limit = false ∧
      size_rejected (limit + 1) limit = true) := by
  refine ⟨by decide, by decide, by decide, by decide, fun limit => ⟨?_, ?_⟩⟩
  · simp [size_rejected]
  · simp [size_rejected]

/-- C8: decoding the callback token produced for each preset of the fixed
vocabulary yields the expected QualitySelection — height caps map to
180/240/360/480/720/1080/1440/2160, `best` and `audio` carry no cap — for
every session URL, and decoding a token built from an unrecognized
(colon-free) preset fails (the height-dict lookup raises, i.e. decoding
returns `none`). -/
theorem quality_token_roundtrip (url : List Char) :
    decode_token (encode_token "180p".toList url) = some (QualitySelection.videoHeightCap 180) ∧
    decode_token (encode_token "240p".toList url) = some (QualitySelection.videoHeightCap 240) ∧
    decode_token (encode_token "360p".toList url) = some (QualitySelection.videoHeightCap 360) ∧
    decode_token (encode_token "480p".toList url) = some (QualitySelection.videoHeightCap 480) ∧
    decode_token (encode_token "720p".toList url) = some (QualitySelection.videoHeightCap 720) ∧
    decode_token (encode_token "1080p".toList url) = some (QualitySelection.videoHeightCap 1080) ∧
    decode_token (encode_token "1440p".toList url) = some (QualitySelection.videoHeightCap 1440) ∧
    decode_token (encode_token "4k".toList url) = some (QualitySelection.videoHeightCap 2160) ∧
    decode_token (encode_token "best".toList url) = some QualitySelection.bestAvailable ∧
    decode_token (encode_token "audio".toList url) = some QualitySelection.audioOnly ∧
    (∀ p : List Char, (':' : Char) ∉ p → p ∉ QUALITY_OPTIONS → p ≠ "audio".toList →
      decode_token (encode_token p url) = none) := by
  refine ⟨?_, ?_, ?_, ?_, ?_, ?_, ?_, ?_, ?_, ?_, ?_⟩
  case _ => rw [decode_encode _ _ (by decide)]; rfl
  case _ => rw [decode_encode _ _ (by decide)]; rfl
  case _ => rw [decode_encode _ _ (by decide)]; rfl
  case _ => rw [decode_encode _ _ (by decide)]; rfl
  case _ => rw [decode_encode _ _ (by decide)]; rfl
  case _ => rw [decode_encode _ _ (by decide)]; rfl
  case _ => rw [decode_encode _ _ (by decide)]; rfl
  case _ => rw [decode_encode _ _ (by decide)]; rfl
  case _ => rw [decode_encode _ _ (by decide)]; rfl
  case _ => rw [decode_encode _ _ (by decide)]; rfl
  case _ =>
    intro p hp hmem hne
    rw [decode_encode _ _ hp, if_neg hne, height_map_none_of_not_mem p hmem]

theorem quality_token_roundtrip_witness :
    decode_token (encode_token "720p".toList urlY) =
      some (QualitySelection.videoHeightCap 720) ∧
    decode_token (encode_token "999p".toList urlY) = none := by
  have h := quality_token_roundtrip urlY
  exact ⟨h.2.2.2.2.1,
    h.2.2.2.2.2.2.2.2.2.2 "999p".toList (by decide) (by decide) (by decide)⟩

/-- C9: `detect_platform` is total (it always returns either a table tag or
`other`), returns `other` exactly when no entry of the ordered table matches
case-insensitively, and returns the tag of the first matching entry when one
does. -/
theorem detect_platform_first_match (url : List Char) :
    ((∀ e ∈ PLATFORM_PATTERNS, pattern_matches url e.2 = false) →
      detect_platform url = "other".toList) ∧
    (∀ (l1 l2 : List (List Char × List (List Char))) (e : List Char × List (List Char)),
      PLATFORM_PATTERNS = l1 ++ e :: l2 → pattern_matches url e.2 = true →
      (∀ x ∈ l1, pattern_matches url x.2 = false) → detect_platform url = e.1) ∧
    (detect_platform url = "other".toList ∨
      ∃ e, e ∈ PLATFORM_PATTERNS ∧ detect_platform url = e.1) := by
  refine ⟨?_, ?_, ?_⟩
  · intro h
    rw [detect_platform, List.find?_eq_none.mpr]
    intro x hx
    simp [h x hx]
  · intro l1 l2 e hsplit hmatch hbefore
    rw [detect_platform, hsplit, find?_first _ e l1 l2 hbefore hmatch]
  · rw [detect_platform]
    cases hf : PLATFORM_PATTERNS.find? (fun e => pattern_matches url e.2) with
    | none => exact Or.inl rfl
    | some e => exact Or.inr ⟨e, List.mem_of_find?_eq_some hf, rfl⟩

theorem detect_platform_witness :
    detect_platform "https://example.com/x".toList = "other".toList ∧
    detect_platform "https://youtu.be/abc".toList = "youtube".toList := by
  constructor
  · exact (detect_platform_first_match "https://example.com/x".toList).1 (by decide)
  · exact (detect_platform_first_match "https://youtu.be/abc".toList).2.1 []
      [("instagram".toList, ["instagram.com".toList]),
       ("tiktok".toList, ["tiktok.com".toList]),
       ("twitter".toList, ["twitter.com".toList, "x.com".toList]),
       ("facebook".toList, ["facebook.com".toList]),
       ("vimeo".toList, ["vimeo.com".toList]),
       ("soundcloud".toList, ["soundcloud.com".toList]),
       ("spotify".toList, ["spotify.com".toList])]
      ("youtube".toList, ["youtube.com".toList, "youtu.be".toList])
      rfl (by decide) (by simp)

/-- C10: when the bookkeeping lookup returns no profile, the run proceeds
(no ban notice, a record is still created), uses the Free 1 GiB ceiling for
the size check — rejecting with the Free limit, accepting and delivering
below it — and never performs a user-stat upsert on any path, including
successful completion. -/
theorem missing_profile_defaults_free_no_stats
    (q : List Char) (pu pl : Option (List Char))
    (ex : Except (List Char) ExtractedMedia) (se pe : Option (List Char))
    (hurl : pu.getD [] ≠ [])
    (hq : quality_key_error q = false) :
    Event.editMessage Msg.banned ∉ handle_quality_selection ⟨q, pu, pl, none, ex, se, pe⟩ ∧
    ((handle_quality_selection ⟨q, pu, pl, none, ex, se, pe⟩).filter isLog).length = 1 ∧
    (∀ e ∈ handle_quality_selection ⟨q, pu, pl, none, ex, se, pe⟩, isSync e = false) ∧
    (∀ m, ex = Except.ok m →
      size_rejected m.file_size FREE_MAX_SIZE = true →
        Event.updateDownload (UpdatePayload.failed
          (ErrMsg.tooLarge m.file_size FREE_MAX_SIZE)) ∈
            handle_quality_selection ⟨q, pu, pl, none, ex, se, pe⟩) ∧
    (∀ m, ex = Except.ok m →
      size_rejected m.file_size FREE_MAX_SIZE = false →
        (handle_quality_selection ⟨q, pu, pl, none, ex, se, pe⟩).any isSend = true) := by
  cases ex with
  | error e =>
    simp [handle_quality_selection, run_try, hurl, hq, db_is_banned, db_is_premium,
      max_size_for, isLog, isSync, isSend]
  | ok m =>
    by_cases hsz : size_rejected m.file_size FREE_MAX_SIZE = true <;>
      cases se <;>
      cases pe <;>
      simp [handle_quality_selection, run_try, hurl, hq, hsz, db_is_banned, db_is_premium,
        max_size_for, isLog, isSync, isSend]

theorem missing_profile_witness :
    (∀ e ∈ handle_quality_selection ⟨"best".toList, some urlY, some "youtube".toList, none,
        Except.ok mediaSmall, none, none⟩, isSync e = false) ∧
    (handle_quality_selection ⟨"best".toList, some urlY, some "youtube".toList, none,
        Except.ok mediaSmall, none, none⟩).any isSend = true := by
  have h := missing_profile_defaults_free_no_stats "best".toList (some urlY)
    (some "youtube".toList) (Except.ok mediaSmall) none none (by decide) (by decide)
  exact ⟨h.2.2.1, h.2.2.2.2 mediaSmall rfl (by decide)⟩
